import Mathlib

/-!
Verification of the archadvisor orchestration core against its specification.

The definitions below are a shallow embedding of the Python sources under
`backend/app/`: the validation scoring model (`validators/models.py`), the
validation engine (`validators/engine.py`), the availability validator
(`validators/availability_validator.py` with `validators/reference_data.py`),
the workflow routing (`graph/workflow.py`, `graph/nodes.py`,
`graph/validator_node.py`), the event bus (`services/event_bus.py`), and the
ingress rate-limit path (`api/sessions.py`).  Machine floats in the scoring
code only ever hold integer values, so scores are embedded as `Nat`;
availability arithmetic is embedded exactly over `ℚ`.
-/

namespace ArchAdvisor

/-- Severity levels, from `validators/models.py` (`class Severity`). -/
inductive Severity where
  | critical
  | high
  | medium
  | low
deriving DecidableEq, Repr

/-- Error codes, from `validators/models.py` (`class ErrorCode`). -/
inductive ErrorCode where
  | SCHEMA_MISSING_FIELD
  | SCHEMA_INVALID_TYPE
  | SCHEMA_INVALID_VALUE
  | SCHEMA_EMPTY_COMPONENTS
  | SPOF_DATABASE
  | SPOF_CACHE
  | SPOF_GATEWAY
  | SPOF_QUEUE
  | SPOF_GENERIC
  | AVAIL_TARGET_UNREACHABLE
  | AVAIL_COMPOSITE_BELOW_TARGET
  | AVAIL_NO_MULTI_AZ
  | AVAIL_NO_REPLICATION
  | AVAIL_SINGLE_REGION_HIGH_SLA
  | CAP_THROUGHPUT_EXCEEDS_BENCHMARK
  | CAP_NO_AUTOSCALING
  | CAP_SINGLE_NODE_HIGH_RPS
  | CAP_NO_SHARDING
  | CAP_HOTSPOT_RISK
  | CAP_NO_SCALING_STRATEGY
  | CONSIST_EVENTUAL_NO_JUSTIFICATION
  | CONSIST_STRONG_MULTI_REGION_LATENCY
  | CONSIST_STRONG_WITH_EVENTUAL_DB
  | CONSIST_MISSING_STRATEGY
  | CONTRA_EVENT_DRIVEN_NO_BROKER
  | CONTRA_STRONG_CONSIST_EVENTUAL_DB
  | CONTRA_SERVERLESS_WITH_K8S
  | CONTRA_LOW_LATENCY_MANY_HOPS
  | CONTRA_MULTI_REGION_SINGLE_DEPLOY
  | CONTRA_STYLE_MISMATCH
  | CONTRA_STATELESS_WITH_LOCAL_STATE
  | OPS_TOO_MANY_SERVICES
  | OPS_OVER_ENGINEERED
  | OPS_KAFKA_LOW_THROUGHPUT
  | OPS_MULTI_REGION_MVP
  | OPS_ENTERPRISE_FOR_STARTUP
  | MISSING_AUTH
  | MISSING_ANALYTICS
  | MISSING_DR
  | MISSING_MONITORING
  | MISSING_LOGGING
  | MISSING_RATE_LIMITING
  | MISSING_ENCRYPTION
  | MISSING_SEARCH
  | MISSING_NOTIFICATION
  | MISSING_CACHING
deriving DecidableEq, Repr

/-- A single validation finding, from `validators/models.py`
(`class ValidationError`). -/
structure VError where
  code : ErrorCode
  severity : Severity
  message : String
  component : Option String := none
  field : Option String := none
  suggestion : Option String := none
  evidence : Option String := none
deriving DecidableEq, Repr

/-- Scoring categories (the five fields of `ScoreBreakdown`). -/
inductive Cat where
  | reliability
  | scalability
  | consistency
  | security
  | operational
deriving DecidableEq, Repr

/-- Score breakdown by category, from `validators/models.py`
(`class ScoreBreakdown`).  Every value the Python code ever stores here is a
nonnegative integer (integer caps minus integer penalties, clamped at 0 by
`max(0, current - penalty)`), so the fields are embedded as `Nat`, where
subtraction already clamps at 0. -/
structure ScoreBreakdown where
  reliability : Nat := 30
  scalability : Nat := 25
  consistency : Nat := 15
  security : Nat := 15
  operational : Nat := 15
deriving DecidableEq, Repr

/-- `ScoreBreakdown.total`: sum of the five categories (the Python
`max(0, ...)` wrapper is the identity on a sum of nonnegative values). -/
def ScoreBreakdown.total (b : ScoreBreakdown) : Nat :=
  b.reliability + b.scalability + b.consistency + b.security + b.operational

/-- Read one category field of a breakdown. -/
def ScoreBreakdown.get (b : ScoreBreakdown) : Cat → Nat
  | .reliability => b.reliability
  | .scalability => b.scalability
  | .consistency => b.consistency
  | .security => b.security
  | .operational => b.operational

/-- Write one category field of a breakdown
(the `setattr(score_breakdown, category, ...)` in `ValidationReport.build`). -/
def ScoreBreakdown.set (b : ScoreBreakdown) : Cat → Nat → ScoreBreakdown
  | .reliability, v => { b with reliability := v }
  | .scalability, v => { b with scalability := v }
  | .consistency, v => { b with consistency := v }
  | .security, v => { b with security := v }
  | .operational, v => { b with operational := v }

/-- `PENALTY_WEIGHTS` from `validators/models.py`: penalty per severity per
category. -/
def PENALTY_WEIGHTS : Severity → Cat → Nat
  | .critical, .reliability => 15
  | .critical, .scalability => 12
  | .critical, .consistency => 8
  | .critical, .security => 8
  | .critical, .operational => 8
  | .high, .reliability => 8
  | .high, .scalability => 6
  | .high, .consistency => 5
  | .high, .security => 5
  | .high, .operational => 5
  | .medium, .reliability => 4
  | .medium, .scalability => 3
  | .medium, .consistency => 3
  | .medium, .security => 3
  | .medium, .operational => 3
  | .low, _ => 1

/-- `ERROR_CATEGORY_MAP` from `validators/models.py`: every error code maps to
one scoring category (the map in the source covers the whole enum, so the
`.get(..., "operational")` default never fires). -/
def ERROR_CATEGORY_MAP : ErrorCode → Cat
  | .SPOF_DATABASE => .reliability
  | .SPOF_CACHE => .reliability
  | .SPOF_GATEWAY => .reliability
  | .SPOF_QUEUE => .reliability
  | .SPOF_GENERIC => .reliability
  | .AVAIL_TARGET_UNREACHABLE => .reliability
  | .AVAIL_COMPOSITE_BELOW_TARGET => .reliability
  | .AVAIL_NO_MULTI_AZ => .reliability
  | .AVAIL_NO_REPLICATION => .reliability
  | .AVAIL_SINGLE_REGION_HIGH_SLA => .reliability
  | .CAP_THROUGHPUT_EXCEEDS_BENCHMARK => .scalability
  | .CAP_NO_AUTOSCALING => .scalability
  | .CAP_SINGLE_NODE_HIGH_RPS => .scalability
  | .CAP_NO_SHARDING => .scalability
  | .CAP_HOTSPOT_RISK => .scalability
  | .CAP_NO_SCALING_STRATEGY => .scalability
  | .CONSIST_EVENTUAL_NO_JUSTIFICATION => .consistency
  | .CONSIST_STRONG_MULTI_REGION_LATENCY => .consistency
  | .CONSIST_STRONG_WITH_EVENTUAL_DB => .consistency
  | .CONSIST_MISSING_STRATEGY => .consistency
  | .CONTRA_EVENT_DRIVEN_NO_BROKER => .consistency
  | .CONTRA_STRONG_CONSIST_EVENTUAL_DB => .consistency
  | .CONTRA_SERVERLESS_WITH_K8S => .consistency
  | .CONTRA_LOW_LATENCY_MANY_HOPS => .consistency
  | .CONTRA_MULTI_REGION_SINGLE_DEPLOY => .consistency
  | .CONTRA_STYLE_MISMATCH => .consistency
  | .CONTRA_STATELESS_WITH_LOCAL_STATE => .consistency
  | .MISSING_AUTH => .security
  | .MISSING_ENCRYPTION => .security
  | .OPS_TOO_MANY_SERVICES => .operational
  | .OPS_OVER_ENGINEERED => .operational
  | .OPS_KAFKA_LOW_THROUGHPUT => .operational
  | .OPS_MULTI_REGION_MVP => .operational
  | .OPS_ENTERPRISE_FOR_STARTUP => .operational
  | .MISSING_ANALYTICS => .operational
  | .MISSING_DR => .reliability
  | .MISSING_MONITORING => .operational
  | .MISSING_LOGGING => .operational
  | .MISSING_RATE_LIMITING => .security
  | .MISSING_SEARCH => .operational
  | .MISSING_NOTIFICATION => .operational
  | .MISSING_CACHING => .scalability
  | .SCHEMA_MISSING_FIELD => .reliability
  | .SCHEMA_INVALID_TYPE => .reliability
  | .SCHEMA_INVALID_VALUE => .reliability
  | .SCHEMA_EMPTY_COMPONENTS => .reliability

/-- Severity counts by name, the `summary` dict of `ValidationReport`. -/
structure SeveritySummary where
  critical : Nat := 0
  high : Nat := 0
  medium : Nat := 0
  low : Nat := 0
deriving DecidableEq, Repr

/-- The severity-counting loop at the top of `ValidationReport.build`. -/
def countSummary (errors : List VError) : SeveritySummary :=
  { critical := (errors.filter (fun e => e.severity = .critical)).length
    high := (errors.filter (fun e => e.severity = .high)).length
    medium := (errors.filter (fun e => e.severity = .medium)).length
    low := (errors.filter (fun e => e.severity = .low)).length }

/-- One iteration of the scoring loop of `ValidationReport.build`:
look up the error's category, subtract the severity/category penalty,
clamped at 0 (`max(0, current - penalty)` is `Nat` subtraction here). -/
def applyPenalty (b : ScoreBreakdown) (e : VError) : ScoreBreakdown :=
  let category := ERROR_CATEGORY_MAP e.code
  let penalty := PENALTY_WEIGHTS e.severity category
  b.set category (b.get category - penalty)

/-- The full scoring loop of `ValidationReport.build`. -/
def applyPenalties (errors : List VError) : ScoreBreakdown :=
  errors.foldl applyPenalty {}

/-- Index of a severity in `list(Severity)` (declaration order), the sort key
used by `ValidationReport.build` for the errors list. -/
def severityIndex : Severity → Nat
  | .critical => 0
  | .high => 1
  | .medium => 2
  | .low => 3

/-- The complete validation report, from `validators/models.py`
(`class ValidationReport`).  `score` is stored rounded to one decimal in the
source; on the integer values produced here rounding is the identity. -/
structure ValidationReport where
  passed : Bool
  score : Nat
  score_breakdown : ScoreBreakdown
  summary : SeveritySummary
  errors : List VError
  verdict : String
deriving DecidableEq, Repr

/-- The verdict strings of `ValidationReport.build` (`{score:.0f}` on the
integer-valued score is plain decimal printing). -/
def buildVerdict (passed : Bool) (score : Nat) (summary : SeveritySummary) : String :=
  if passed ∧ 80 ≤ score then
    "PASS — Strong design (score: " ++ toString score ++ "/100). Ready for review."
  else if passed then
    "PASS — Acceptable design (score: " ++ toString score ++ "/100) with " ++
      toString summary.high ++ " high-severity findings to address."
  else if 0 < summary.critical then
    "FAIL — " ++ toString summary.critical ++
      " critical issue(s) must be resolved before review. Score: " ++
      toString score ++ "/100."
  else
    "FAIL — Score " ++ toString score ++
      "/100 is below threshold (60). Address high-severity findings."

/-- `ValidationReport.build` from `validators/models.py`: count severities,
apply penalties, total the breakdown, decide the pass gate
(`passed = summary["critical"] == 0 and score >= 60`), and sort the errors by
severity (Python `sorted` is stable; `List.mergeSort` is stable). -/
def ValidationReport.build (errors : List VError) : ValidationReport :=
  let summary := countSummary errors
  let score_breakdown := applyPenalties errors
  let score := score_breakdown.total
  let passed : Bool := decide (summary.critical = 0 ∧ 60 ≤ score)
  { passed := passed
    score := score
    score_breakdown := score_breakdown
    summary := summary
    errors := errors.mergeSort (fun a b => severityIndex a.severity ≤ severityIndex b.severity)
    verdict := buildVerdict passed score summary }

lemma applyPenalties_append_single (E : List VError) (e : VError) :
    applyPenalties (E ++ [e]) = applyPenalty (applyPenalties E) e := by
  simp [applyPenalties, List.foldl_append]

lemma applyPenalty_total_le (b : ScoreBreakdown) (e : VError) :
    (applyPenalty b e).total ≤ b.total := by
  cases hcat : ERROR_CATEGORY_MAP e.code <;>
    simp [applyPenalty, hcat, ScoreBreakdown.set, ScoreBreakdown.get,
      ScoreBreakdown.total]

lemma applyPenalty_get_lt (b : ScoreBreakdown) (e : VError)
    (hc : e.severity = Severity.critical)
    (h0 : b.get (ERROR_CATEGORY_MAP e.code) ≠ 0) :
    (applyPenalty b e).get (ERROR_CATEGORY_MAP e.code) <
      b.get (ERROR_CATEGORY_MAP e.code) := by
  cases hcat : ERROR_CATEGORY_MAP e.code <;>
    rw [hcat] at h0 <;>
    simp [applyPenalty, hcat, hc, ScoreBreakdown.set, ScoreBreakdown.get,
      PENALTY_WEIGHTS] at h0 ⊢ <;>
    omega

/-- C1.  For every list of validation errors, the `ValidationReport` built
from it has `passed = true` if and only if the number of errors with severity
critical is zero and the total score is at least 60
(`ValidationReport.build`, `validators/models.py`). -/
theorem c1_pass_gate (errors : List VError) :
    (ValidationReport.build errors).passed = true ↔
      ((errors.filter (fun e => e.severity = Severity.critical)).length = 0 ∧
        60 ≤ (ValidationReport.build errors).score) := by
  simp [ValidationReport.build, countSummary]

/-- C2.  Appending any error to the error list never increases the score of
the built report; and appending a CRITICAL error strictly decreases the
score-breakdown category its code maps to, unless that category is already 0
(`ValidationReport.build` with `PENALTY_WEIGHTS`, `validators/models.py`). -/
theorem c2_scoring_monotonicity (E : List VError) (e : VError) :
    (ValidationReport.build (E ++ [e])).score ≤ (ValidationReport.build E).score ∧
    (e.severity = Severity.critical →
      (ValidationReport.build E).score_breakdown.get (ERROR_CATEGORY_MAP e.code) = 0 ∨
      (ValidationReport.build (E ++ [e])).score_breakdown.get (ERROR_CATEGORY_MAP e.code) <
        (ValidationReport.build E).score_breakdown.get (ERROR_CATEGORY_MAP e.code)) := by
  constructor
  · show (applyPenalties (E ++ [e])).total ≤ (applyPenalties E).total
    rw [applyPenalties_append_single]
    exact applyPenalty_total_le _ _
  · intro hc
    by_cases h0 : (applyPenalties E).get (ERROR_CATEGORY_MAP e.code) = 0
    · exact Or.inl h0
    · refine Or.inr ?_
      show (applyPenalties (E ++ [e])).get (ERROR_CATEGORY_MAP e.code) <
        (applyPenalties E).get (ERROR_CATEGORY_MAP e.code)
      rw [applyPenalties_append_single]
      exact applyPenalty_get_lt _ _ hc h0

/-- Witness for C2: instantiated at the empty report plus one CRITICAL
`SPOF_DATABASE` error (reliability drops from 30 to 15). -/
theorem c2_scoring_monotonicity_witness :
    (ValidationReport.build
        ([] ++ [{ code := .SPOF_DATABASE, severity := .critical, message := "w" }])).score ≤
      (ValidationReport.build []).score ∧
    ((ValidationReport.build []).score_breakdown.get
        (ERROR_CATEGORY_MAP ErrorCode.SPOF_DATABASE) = 0 ∨
      (ValidationReport.build
          ([] ++ [{ code := .SPOF_DATABASE, severity := .critical, message := "w" }])).score_breakdown.get
          (ERROR_CATEGORY_MAP ErrorCode.SPOF_DATABASE) <
        (ValidationReport.build []).score_breakdown.get
          (ERROR_CATEGORY_MAP ErrorCode.SPOF_DATABASE)) :=
  ⟨(c2_scoring_monotonicity []
      { code := .SPOF_DATABASE, severity := .critical, message := "w" }).1,
    (c2_scoring_monotonicity []
      { code := .SPOF_DATABASE, severity := .critical, message := "w" }).2 rfl⟩

/-! ## Validation engine (`validators/engine.py`)

The engine is generic in the parsed-design type `δ`: each validator is the
pair of its `name` property and its `validate(design, requirements)` method,
where a raised exception is embedded as `Except.error` carrying `str(e)`. -/

/-- One validator of the chain (`BaseValidator`, `validators/base.py`):
its `name` and its fallible `validate` method. -/
structure Validator (δ : Type) where
  name : String
  run : δ → String → Except String (List VError)

/-- The MEDIUM finding appended when a validator raises
(`ValidationEngine.validate`, `except` branch of the validator loop). -/
def crashFinding (name msg : String) : VError :=
  { code := .SCHEMA_INVALID_TYPE
    severity := .medium
    message := "Validator '" ++ name ++ "' crashed: " ++ msg }

/-- One iteration of the engine's validator loop: extend with the validator's
findings, or catch its exception and record a `crashFinding`. -/
def runValidatorCaught (v : Validator δ) (d : δ) (req : String) : List VError :=
  match v.run d req with
  | .ok es => es
  | .error e => [crashFinding v.name e]

/-- The engine's validator loop (`for validator in self.validators`),
accumulating `all_errors` by `extend`/`append` in chain order. -/
def runAllValidators (vs : List (Validator δ)) (d : δ) (req : String) : List VError :=
  vs.foldl (fun acc v => acc ++ runValidatorCaught v d req) []

/-- The CRITICAL finding returned when the design string is not parseable JSON
(`ValidationEngine.validate`, `json.JSONDecodeError` branch). -/
def jsonParseFailure (errmsg : String) : VError :=
  { code := .SCHEMA_INVALID_TYPE
    severity := .critical
    message := "Cannot parse architecture JSON: " ++ errmsg
    suggestion := some "Ensure the architecture output is valid JSON" }

/-- The engine's design argument: an already-parsed dict, or a JSON string
(`design: Union[dict, str]`). -/
inductive DesignInput (δ : Type) where
  | parsed (d : δ)
  | text (s : String)

/-- `ValidationEngine.validate` (`validators/engine.py`): parse a string
input with the given JSON parser (`json.loads`, external to the repository,
is a parameter; `.error` is a `JSONDecodeError`), then run the whole chain
and build the report.  The second component records the names of the
validators whose `validate` method was invoked, in execution order. -/
def engineValidate (parse : String → Except String δ) (vs : List (Validator δ))
    (input : DesignInput δ) (req : String) : ValidationReport × List String :=
  match input with
  | .text s =>
    match parse s with
    | .error e => (ValidationReport.build [jsonParseFailure e], [])
    | .ok d => (ValidationReport.build (runAllValidators vs d req), vs.map (fun v => v.name))
  | .parsed d => (ValidationReport.build (runAllValidators vs d req), vs.map (fun v => v.name))

lemma runAll_acc (d : δ) (req : String) (vs : List (Validator δ)) (acc : List VError) :
    vs.foldl (fun acc v => acc ++ runValidatorCaught v d req) acc =
      acc ++ vs.foldl (fun acc v => acc ++ runValidatorCaught v d req) [] := by
  induction vs generalizing acc with
  | nil => simp
  | cons v vs ih =>
      rw [List.foldl_cons, List.foldl_cons, ih (acc ++ runValidatorCaught v d req),
        ih ([] ++ runValidatorCaught v d req)]
      simp [List.append_assoc]

lemma runAllValidators_middle (pre post : List (Validator δ)) (f : Validator δ)
    (d : δ) (req : String) :
    runAllValidators (pre ++ f :: post) d req =
      runAllValidators pre d req ++ runValidatorCaught f d req ++
        runAllValidators post d req := by
  simp only [runAllValidators, List.foldl_append, List.foldl_cons]
  rw [runAll_acc d req post]

/-- C6.  If a single validator in the chain raises during `validate`, the
exception is caught: the produced error list is the concatenation of every
other validator's findings in chain order with a MEDIUM-severity
`SCHEMA_INVALID_TYPE` (schema) finding in the failed validator's slot, every
remaining validator still runs (its name appears in the executed trace and
its findings in the list), and the complete report is still built
(`ValidationEngine.validate`, `validators/engine.py`). -/
theorem c6_validator_fault_isolated (δ : Type) (parse : String → Except String δ)
    (pre post : List (Validator δ)) (f : Validator δ) (d : δ) (req : String)
    (e : String) (hf : f.run d req = .error e) :
    engineValidate parse (pre ++ f :: post) (.parsed d) req =
      (ValidationReport.build
        (runAllValidators pre d req ++ [crashFinding f.name e] ++
          runAllValidators post d req),
        pre.map (fun v => v.name) ++ f.name :: post.map (fun v => v.name)) ∧
    (crashFinding f.name e).severity = Severity.medium ∧
    (crashFinding f.name e).code = ErrorCode.SCHEMA_INVALID_TYPE := by
  refine ⟨?_, rfl, rfl⟩
  simp [engineValidate, runAllValidators_middle, runValidatorCaught, hf]

/-- Witness for C6: a two-validator chain whose first validator raises; the
second still runs and the report is built. -/
theorem c6_validator_fault_isolated_witness :
    engineValidate (δ := Unit) (fun _ => .ok ())
        ([] ++ ({ name := "boom", run := fun _ _ => .error "kaputt" } : Validator Unit) ::
          [{ name := "ok", run := fun _ _ => .ok [] }]) (.parsed ()) "" =
      (ValidationReport.build
        (runAllValidators [] () "" ++ [crashFinding "boom" "kaputt"] ++
          runAllValidators [{ name := "ok", run := fun _ _ => .ok [] }] () ""),
        List.map (fun v => v.name) ([] : List (Validator Unit)) ++
          "boom" :: List.map (fun v => v.name)
            [({ name := "ok", run := fun _ _ => .ok [] } : Validator Unit)]) ∧
    (crashFinding "boom" "kaputt").severity = Severity.medium ∧
    (crashFinding "boom" "kaputt").code = ErrorCode.SCHEMA_INVALID_TYPE :=
  c6_validator_fault_isolated Unit (fun _ => .ok ()) []
    [{ name := "ok", run := fun _ _ => .ok [] }]
    { name := "boom", run := fun _ _ => .error "kaputt" } () "" "kaputt" rfl

/-- C10.  For every design string the parser rejects, the engine returns
normally with a report containing exactly one error, of code
`SCHEMA_INVALID_TYPE` and severity critical, with `passed = false`, and no
validator of the chain is executed
(`ValidationEngine.validate`, `validators/engine.py`). -/
theorem c10_unparseable_json (δ : Type) (parse : String → Except String δ)
    (vs : List (Validator δ)) (s req e : String) (hp : parse s = .error e) :
    (engineValidate parse vs (.text s) req).2 = [] ∧
    (engineValidate parse vs (.text s) req).1.errors = [jsonParseFailure e] ∧
    (jsonParseFailure e).code = ErrorCode.SCHEMA_INVALID_TYPE ∧
    (jsonParseFailure e).severity = Severity.critical ∧
    (engineValidate parse vs (.text s) req).1.passed = false := by
  refine ⟨?_, ?_, rfl, rfl, ?_⟩
  · simp [engineValidate, hp]
  · simp [engineValidate, hp, ValidationReport.build]
  · simp [engineValidate, hp, ValidationReport.build, countSummary, jsonParseFailure]

/-- Witness for C10: a parser that rejects everything, on the string `"not json"`. -/
theorem c10_unparseable_json_witness :
    (engineValidate (δ := Unit) (fun _ => .error "Expecting value")
        [] (.text "not json") "").2 = [] ∧
    (engineValidate (δ := Unit) (fun _ => .error "Expecting value")
        [] (.text "not json") "").1.errors = [jsonParseFailure "Expecting value"] ∧
    (jsonParseFailure "Expecting value").code = ErrorCode.SCHEMA_INVALID_TYPE ∧
    (jsonParseFailure "Expecting value").severity = Severity.critical ∧
    (engineValidate (δ := Unit) (fun _ => .error "Expecting value")
        [] (.text "not json") "").1.passed = false :=
  c10_unparseable_json Unit (fun _ => .error "Expecting value") [] "not json" ""
    "Expecting value" rfl

/-! ## Sliding-window rate limiter (spec §4.2)

`api/sessions.py` calls `rate_limiter.allow_request`, `rate_limiter.remaining`,
`rate_limiter.max_requests` and `rate_limiter.reset_time`; the limiter module
present under `services/rate_limiter.py` is the token-bucket variant, which
exposes `max_tokens`/`remaining_tokens` and no `remaining`/`max_requests`.
The sliding-window implementation the ingress actually wires (spec §4.2 and
§9 note it shares the module name) is therefore modelled from the spec.
Keys are independent (per-key state), so one key's timestamp log is modelled. -/

/-- Modelled from the spec: the sliding-window limiter's `allow(key)`
(`services/rate_limiter.py` sliding-window variant, absent from src):
prune timestamps older than `now − window` (keep `t` with `now ≤ t + window`),
admit iff remaining slots > 0, and record a new timestamp on admit. -/
def swAllow (maxRequests window now : Nat) (log : List Nat) : Bool × List Nat :=
  let kept := log.filter (fun t => decide (now ≤ t + window))
  if kept.length < maxRequests then (true, kept ++ [now]) else (false, kept)

/-- Modelled from the spec: `remaining(key)` — remaining in-window slots,
without consuming. -/
def swRemaining (maxRequests window now : Nat) (log : List Nat) : Nat :=
  maxRequests - (log.filter (fun t => decide (now ≤ t + window))).length

/-- Modelled from the spec: `reset_time(key)` — seconds until the oldest
in-window timestamp expires (a timestamp `t` is in-window while
`now ≤ t + window`, so it expires at `t + window + 1`). -/
def swResetTime (window now : Nat) (log : List Nat) : Nat :=
  match (log.filter (fun t => decide (now ≤ t + window))).min? with
  | none => 0
  | some t0 => t0 + window + 1 - now

/-- A sequence of `allow` calls at the given (non-decreasing) times against
one key, from the given timestamp log: the list of (time, admitted) results. -/
def swRun (maxRequests window : Nat) : List Nat → List Nat → List (Nat × Bool)
  | _, [] => []
  | log, t :: ts =>
    let r := swAllow maxRequests window t log
    (t, r.1) :: swRun maxRequests window r.2 ts

/-- Number of admitted calls whose time lies in the closed window
`[T, T + window]`. -/
def countAdmittedIn (T window : Nat) : List (Nat × Bool) → Nat
  | [] => 0
  | p :: rest =>
    (if p.2 = true ∧ T ≤ p.1 ∧ p.1 ≤ T + window then 1 else 0) +
      countAdmittedIn T window rest

/-- Number of timestamps `≥ T` in a log. -/
def countAtLeast (T : Nat) : List Nat → Nat
  | [] => 0
  | u :: l => (if T ≤ u then 1 else 0) + countAtLeast T l

lemma countAtLeast_filter (T window now : Nat) (log : List Nat)
    (hw : now ≤ T + window) :
    countAtLeast T (log.filter (fun u => decide (now ≤ u + window))) =
      countAtLeast T log := by
  induction log with
  | nil => rfl
  | cons u l ih =>
      by_cases hu : now ≤ u + window
      · simp [List.filter_cons, hu, countAtLeast, ih]
      · have hTu : ¬ T ≤ u := by omega
        simp [List.filter_cons, hu, countAtLeast, ih, hTu]

lemma countAtLeast_append_single (T : Nat) (l : List Nat) (t : Nat) :
    countAtLeast T (l ++ [t]) = countAtLeast T l + (if T ≤ t then 1 else 0) := by
  induction l with
  | nil => simp [countAtLeast]
  | cons u l ih => simp [countAtLeast, ih]; omega

lemma countAtLeast_le_length (T : Nat) (l : List Nat) :
    countAtLeast T l ≤ l.length := by
  induction l with
  | nil => simp [countAtLeast]
  | cons u l ih => simp [countAtLeast]; split <;> omega

lemma swRun_none_admitted_in (maxRequests window T : Nat) :
    ∀ (ts log : List Nat), (∀ t ∈ ts, T + window < t) →
      countAdmittedIn T window (swRun maxRequests window log ts) = 0 := by
  intro ts
  induction ts with
  | nil => intro log _; rfl
  | cons t ts ih =>
      intro log hall
      have ht : T + window < t := hall t (List.mem_cons_self t ts)
      have hts : ∀ u ∈ ts, T + window < u := fun u hu => hall u (List.mem_cons_of_mem t hu)
      simp only [swRun, countAdmittedIn]
      rw [ih _ hts]
      have : ¬ (((swAllow maxRequests window t log).1 = true) ∧ T ≤ t ∧ t ≤ T + window) := by
        rintro ⟨-, -, h⟩; omega
      simp [this]

lemma swRun_count_le (maxRequests window T : Nat) :
    ∀ (ts log : List Nat), List.Sorted (· ≤ ·) ts →
      countAtLeast T log ≤ maxRequests →
      countAdmittedIn T window (swRun maxRequests window log ts) +
        countAtLeast T log ≤ maxRequests := by
  intro ts
  induction ts with
  | nil => intro log _ hlog; simpa [swRun, countAdmittedIn] using hlog
  | cons t ts ih =>
      intro log hs hlog
      have hts : ∀ u ∈ ts, t ≤ u := (List.sorted_cons.mp hs).1
      have hs' : List.Sorted (· ≤ ·) ts := (List.sorted_cons.mp hs).2
      by_cases hw : t ≤ T + window
      · have hkeptT :
            countAtLeast T (log.filter (fun u => decide (t ≤ u + window))) =
              countAtLeast T log := countAtLeast_filter T window t log hw
        simp only [swRun, swAllow, countAdmittedIn]
        by_cases hadm :
            (log.filter (fun u => decide (t ≤ u + window))).length < maxRequests
        · simp only [hadm, if_true, if_pos]
          have hnew :
              countAtLeast T (log.filter (fun u => decide (t ≤ u + window)) ++ [t]) =
                countAtLeast T log + (if T ≤ t then 1 else 0) := by
            rw [countAtLeast_append_single, hkeptT]
          have hnewle :
              countAtLeast T (log.filter (fun u => decide (t ≤ u + window)) ++ [t]) ≤
                maxRequests := by
            rw [countAtLeast_append_single]
            have := countAtLeast_le_length T (log.filter (fun u => decide (t ≤ u + window)))
            split <;> omega
          have ihr := ih _ hs' hnewle
          by_cases hTt : T ≤ t
          · rw [if_pos ⟨trivial, hTt, hw⟩]
            rw [hnew, if_pos hTt] at ihr
            omega
          · rw [if_neg (fun h => hTt h.2.1)]
            rw [hnew, if_neg hTt] at ihr
            omega
        · simp only [hadm, if_false, if_neg]
          have hkle : countAtLeast T (log.filter (fun u => decide (t ≤ u + window))) ≤
              maxRequests := by rw [hkeptT]; exact hlog
          have ihr := ih _ hs' hkle
          rw [hkeptT] at ihr
          have : ¬ ((false = true) ∧ T ≤ t ∧ t ≤ T + window) := by rintro ⟨h, -⟩; cases h
          rw [if_neg this]
          omega
      · have h0 := swRun_none_admitted_in maxRequests window T (t :: ts) log
          (by
            intro u hu
            rcases List.mem_cons.mp hu with h | h
            · omega
            · have := hts u h; omega)
        omega

/-- C3.  For any key, at most `max_requests` of the `allow` calls whose times
fall inside any sliding window of length `window` seconds return true; each
`allow` call prunes timestamps older than `now − window`, admits only if a
slot remains, and records the new timestamp on admit (the `swAllow`
definition).  Spec-modelled sliding-window limiter (spec §4.2); times are
non-decreasing, the log starts empty. -/
theorem c3_rate_limiter_admission (maxRequests window T : Nat) (ts : List Nat)
    (hs : List.Sorted (· ≤ ·) ts) :
    countAdmittedIn T window (swRun maxRequests window [] ts) ≤ maxRequests := by
  have h := swRun_count_le maxRequests window T ts [] hs (by simp [countAtLeast])
  simpa [countAtLeast] using h

/-- Witness for C3: three calls at times 0, 1, 2 with `max_requests = 2`,
`window = 10`; at most 2 are admitted inside `[0, 10]`. -/
theorem c3_rate_limiter_admission_witness :
    countAdmittedIn 0 10 (swRun 2 10 [] [0, 1, 2]) ≤ 2 :=
  c3_rate_limiter_admission 2 10 0 [0, 1, 2] (by decide)

/-! ## Create-session rate-limit path (`api/sessions.py`) -/

/-- Outcome of the rate-limit gate of `create_session`. -/
inductive CreateSessionResult where
  | accepted (status : Nat)
  | rateLimited (status : Nat) (remaining : Nat) (retry_after_seconds : Nat)
deriving DecidableEq, Repr

/-- The rate-limit gate at the top of `create_session` (`api/sessions.py`,
lines 136–148): call `allow_request(client_ip)`; on denial raise
`HTTPException(429)` whose detail carries `remaining` (queried after the
allow call) and `retry_after_seconds = int(reset_time(client_ip))`; on
admission continue to the 202 response.  The limiter operations are the
spec-modelled sliding-window ones. -/
def create_session_gate (maxRequests window now : Nat) (log : List Nat) :
    CreateSessionResult × List Nat :=
  let r := swAllow maxRequests window now log
  if r.1 then (.accepted 202, r.2)
  else
    (.rateLimited 429 (swRemaining maxRequests window now r.2)
      (swResetTime window now r.2), r.2)

/-- C4.  Whenever a create-session request is denied by the rate limiter, the
endpoint responds with status 429 and a body carrying the client's remaining
request count and retry-after seconds (`create_session`, `api/sessions.py`;
limiter spec-modelled). -/
theorem c4_rate_limited_response (maxRequests window now : Nat) (log : List Nat)
    (hdeny : (swAllow maxRequests window now log).1 = false) :
    (create_session_gate maxRequests window now log).1 =
      .rateLimited 429
        (swRemaining maxRequests window now (swAllow maxRequests window now log).2)
        (swResetTime window now (swAllow maxRequests window now log).2) := by
  simp [create_session_gate, hdeny]

/-- Witness for C4: `max_requests = 1`, one in-window timestamp, so the call
at time 5 is denied and answered with 429, 0 remaining, 11 s retry-after. -/
theorem c4_rate_limited_response_witness :
    (create_session_gate 1 10 5 [5]).1 =
      .rateLimited 429 (swRemaining 1 10 5 (swAllow 1 10 5 [5]).2)
        (swResetTime 10 5 (swAllow 1 10 5 [5]).2) :=
  c4_rate_limited_response 1 10 5 [5] (by decide)

/-! ## Workflow graph and routing (`graph/workflow.py`, `graph/nodes.py`,
`graph/validator_node.py`) -/

/-- The nodes of the workflow graph (`build_graph`, `graph/workflow.py`),
plus the terminal `END`. -/
inductive Stage where
  | retrieve_context
  | architect_design
  | validator
  | architect_revise_validation
  | devils_advocate_review
  | architect_revise
  | cost_analysis
  | generate_docs
  | terminal
deriving DecidableEq, Repr

/-- Result of `should_route_after_validation` (`graph/validator_node.py`). -/
inductive VRoute where
  | pass_to_da
  | revise
  | force_proceed
deriving DecidableEq, Repr

/-- `should_route_after_validation` (`graph/validator_node.py`, lines
127–162): pass if validation passed, force-proceed when
`validation_round >= 2`, otherwise revise. -/
def should_route_after_validation (validation_passed : Bool)
    (validation_round : Nat) : VRoute :=
  if validation_passed then .pass_to_da
  else if 2 ≤ validation_round then .force_proceed
  else .revise

/-- Result of `should_continue_debate` (`graph/nodes.py`). -/
inductive DebateRoute where
  | revise
  | proceed
deriving DecidableEq, Repr

/-- The devil's-advocate output as seen by `should_continue_debate`:
`none` models a `json.JSONDecodeError`/`KeyError` while parsing
`review_findings`; otherwise the critical count from `severity_summary` and
the `proceed_recommendation` string (defaults 0 and "revise_recommended"
applied by the `.get` chain before this point). -/
def DAParse : Type := Option (Nat × String)

/-- `should_continue_debate` (`graph/nodes.py`, lines 329–377): proceed at the
round cap, on parse failure, on zero criticals, or on an explicit "proceed"
recommendation; otherwise revise. -/
def should_continue_debate (debate_round max_debate_rounds : Nat)
    (findings : DAParse) : DebateRoute :=
  if max_debate_rounds ≤ debate_round then .proceed
  else
    match findings with
    | none => .proceed
    | some (critical_count, recommendation) =>
      if critical_count = 0 ∨ recommendation = "proceed" then .proceed
      else .revise

/-- The conditional-edge table after `validator`
(`workflow.add_conditional_edges`, `graph/workflow.py`). -/
def vRouteTarget : VRoute → Stage
  | .pass_to_da => .devils_advocate_review
  | .revise => .architect_revise_validation
  | .force_proceed => .devils_advocate_review

/-- The conditional-edge table after `devils_advocate_review`
(`workflow.add_conditional_edges`, `graph/workflow.py`). -/
def dRouteTarget : DebateRoute → Stage
  | .revise => .architect_revise
  | .proceed => .cost_analysis

/-- The workflow-state fields the routing and the loop counters live on
(`ArchAdvisorState`, `graph/state.py`), together with the next node to run. -/
structure WState where
  node : Stage
  validation_round : Nat
  debate_round : Nat
  max_debate_rounds : Nat
  validation_passed : Bool
  review_findings : DAParse

/-- `create_initial_state` (`graph/state.py`): both counters start at 0;
`max_debate_rounds` comes from the preferences. -/
def initialWState (m : Nat) : WState :=
  { node := .retrieve_context
    validation_round := 0
    debate_round := 0
    max_debate_rounds := m
    validation_passed := false
    review_findings := none }

/-- States reachable by the workflow graph: each constructor is one node
execution followed by its (conditional) out-edge, with the state updates the
node functions return (`graph/nodes.py`, `graph/validator_node.py`).  The
initial constructor carries the pydantic bound `1 ≤ max_debate_rounds ≤ 5`
(`SessionPreferences`, `models/requests.py`). -/
inductive Reach : WState → Prop where
  | init (m : Nat) (h1 : 1 ≤ m) (h5 : m ≤ 5) : Reach (initialWState m)
  | step_retrieve (s : WState) (h : Reach s) (hn : s.node = .retrieve_context) :
      Reach { s with node := .architect_design }
  | step_design (s : WState) (h : Reach s) (hn : s.node = .architect_design) :
      Reach { s with node := .validator, debate_round := 1 }
  | step_validator (s : WState) (passed : Bool) (h : Reach s)
      (hn : s.node = .validator) :
      Reach { s with
        node := vRouteTarget (should_route_after_validation passed s.validation_round)
        validation_passed := passed }
  | step_revise_validation (s : WState) (h : Reach s)
      (hn : s.node = .architect_revise_validation) :
      Reach { s with node := .validator, validation_round := s.validation_round + 1 }
  | step_da (s : WState) (findings : DAParse) (h : Reach s)
      (hn : s.node = .devils_advocate_review) :
      Reach { s with
        node := dRouteTarget (should_continue_debate s.debate_round s.max_debate_rounds findings)
        review_findings := findings }
  | step_revise_da (s : WState) (h : Reach s) (hn : s.node = .architect_revise) :
      Reach { s with node := .devils_advocate_review, debate_round := s.debate_round + 1 }
  | step_cost (s : WState) (h : Reach s) (hn : s.node = .cost_analysis) :
      Reach { s with node := .generate_docs }
  | step_docs (s : WState) (h : Reach s) (hn : s.node = .generate_docs) :
      Reach { s with node := .terminal }

lemma vroute_revise_bounds (passed : Bool) (vr : Nat)
    (h : should_route_after_validation passed vr = .revise) : vr < 2 := by
  by_cases hp : passed = true
  · rw [should_route_after_validation, if_pos hp] at h
    cases h
  · rw [should_route_after_validation, if_neg hp] at h
    by_contra hge
    rw [if_pos (Nat.not_lt.mp hge)] at h
    cases h

lemma droute_revise_bounds (dr m : Nat) (f : DAParse)
    (h : should_continue_debate dr m f = .revise) : dr < m := by
  by_contra hge
  rw [should_continue_debate.eq_def, if_pos (Nat.not_lt.mp hge)] at h
  cases h

lemma vRouteTarget_eq_arv (r : VRoute)
    (h : vRouteTarget r = Stage.architect_revise_validation) : r = .revise := by
  cases r
  · exact absurd h (by simp [vRouteTarget])
  · rfl
  · exact absurd h (by simp [vRouteTarget])

lemma vRouteTarget_ne_ar (r : VRoute) : vRouteTarget r ≠ Stage.architect_revise := by
  cases r <;> simp [vRouteTarget]

lemma dRouteTarget_eq_ar (r : DebateRoute)
    (h : dRouteTarget r = Stage.architect_revise) : r = .revise := by
  cases r
  · rfl
  · exact absurd h (by simp [dRouteTarget])

lemma dRouteTarget_ne_arv (r : DebateRoute) :
    dRouteTarget r ≠ Stage.architect_revise_validation := by
  cases r <;> simp [dRouteTarget]

lemma reach_strong_invariant (s : WState) (h : Reach s) :
    s.validation_round ≤ 2 ∧ s.debate_round ≤ s.max_debate_rounds ∧
      1 ≤ s.max_debate_rounds ∧
      (s.node = .architect_revise_validation → s.validation_round < 2) ∧
      (s.node = .architect_revise → s.debate_round < s.max_debate_rounds) := by
  induction h with
  | init m h1 h5 =>
      refine ⟨?_, ?_, h1, ?_, ?_⟩
      · show (0 : Nat) ≤ 2; omega
      · show (0 : Nat) ≤ m; omega
      · intro hv; simp [initialWState] at hv
      · intro hv; simp [initialWState] at hv
  | step_retrieve s h hn ih =>
      obtain ⟨i1, i2, i3, i4, i5⟩ := ih
      exact ⟨i1, i2, i3, fun hv => by simp at hv, fun hv => by simp at hv⟩
  | step_design s h hn ih =>
      obtain ⟨i1, i2, i3, i4, i5⟩ := ih
      exact ⟨i1, i3, i3, fun hv => by simp at hv, fun hv => by simp at hv⟩
  | step_validator s passed h hn ih =>
      obtain ⟨i1, i2, i3, i4, i5⟩ := ih
      refine ⟨i1, i2, i3, ?_, ?_⟩
      · intro hv
        exact vroute_revise_bounds passed s.validation_round (vRouteTarget_eq_arv _ hv)
      · intro hv
        exact absurd hv (vRouteTarget_ne_ar _)
  | step_revise_validation s h hn ih =>
      obtain ⟨i1, i2, i3, i4, i5⟩ := ih
      have h4 := i4 hn
      refine ⟨?_, i2, i3, fun hv => by simp at hv, fun hv => by simp at hv⟩
      show s.validation_round + 1 ≤ 2
      omega
  | step_da s findings h hn ih =>
      obtain ⟨i1, i2, i3, i4, i5⟩ := ih
      refine ⟨i1, i2, i3, ?_, ?_⟩
      · intro hv
        exact absurd hv (dRouteTarget_ne_arv _)
      · intro hv
        exact droute_revise_bounds s.debate_round s.max_debate_rounds findings
          (dRouteTarget_eq_ar _ hv)
  | step_revise_da s h hn ih =>
      obtain ⟨i1, i2, i3, i4, i5⟩ := ih
      have h5 := i5 hn
      refine ⟨i1, ?_, i3, fun hv => by simp at hv, fun hv => by simp at hv⟩
      show s.debate_round + 1 ≤ s.max_debate_rounds
      omega
  | step_cost s h hn ih =>
      obtain ⟨i1, i2, i3, i4, i5⟩ := ih
      exact ⟨i1, i2, i3, fun hv => by simp at hv, fun hv => by simp at hv⟩
  | step_docs s h hn ih =>
      obtain ⟨i1, i2, i3, i4, i5⟩ := ih
      exact ⟨i1, i2, i3, fun hv => by simp at hv, fun hv => by simp at hv⟩

/-- C5.  In every workflow state reachable from the initial state by the
graph's node executions and routing decisions, `validation_round ≤ 2` and
`debate_round ≤ max_debate_rounds` (`should_route_after_validation`,
`should_continue_debate`, and the node state updates). -/
theorem c5_bounded_loops (s : WState) (h : Reach s) :
    s.validation_round ≤ 2 ∧ s.debate_round ≤ s.max_debate_rounds :=
  ⟨(reach_strong_invariant s h).1, (reach_strong_invariant s h).2.1⟩

/-- Witness for C5: the state after
init → retrieve_context → architect_design with `max_debate_rounds = 3`. -/
theorem c5_bounded_loops_witness :
    ({ initialWState 3 with node := .validator, debate_round := 1} :
        WState).validation_round ≤ 2 ∧
    ({ initialWState 3 with node := .validator, debate_round := 1} :
        WState).debate_round ≤
      ({ initialWState 3 with node := .validator, debate_round := 1} :
        WState).max_debate_rounds :=
  c5_bounded_loops _
    (Reach.step_design { initialWState 3 with node := .architect_design }
      (Reach.step_retrieve (initialWState 3) (Reach.init 3 (by decide) (by decide)) rfl)
      rfl)

/-! ## Event bus replay buffer (`services/event_bus.py`, `api/websocket.py`) -/

/-- One `EventBus.publish` update of the per-session replay buffer
(`services/event_bus.py`, lines 38–43): append the event, then if the buffer
exceeds `_max_history = 100` keep only the last 100 (`[-self._max_history:]`). -/
def publishHistory (h : List α) (e : α) : List α :=
  let h2 := h ++ [e]
  if 100 < h2.length then h2.drop (h2.length - 100) else h2

/-- The replay buffer after publishing the given events in order on a fresh
session. -/
def busHistory (es : List α) : List α := es.foldl publishHistory []

/-- What one WebSocket observer reads (`session_websocket`, `api/websocket.py`):
the `event_history` frame at connect time carries `get_history` (a copy of the
replay buffer after the pre-connect publications `pre`), and each event of
`post` published after the subscription is forwarded to the listener in
publication order until the connection closes. -/
def observedStream (pre post : List α) : List α := busHistory pre ++ post

lemma busHistory_from_small (es : List α) :
    ∀ h : List α, h.length + es.length ≤ 100 → es.foldl publishHistory h = h ++ es := by
  induction es with
  | nil => intro h _; simp
  | cons e es ih =>
      intro h hle
      rw [List.length_cons] at hle
      have hnot : ¬ 100 < (h ++ [e]).length := by
        simp only [List.length_append, List.length_cons, List.length_nil]
        omega
      have hstep : publishHistory h e = h ++ [e] := by
        simp only [publishHistory]
        rw [if_neg hnot]
      have hside : (h ++ [e]).length + es.length ≤ 100 := by
        simp only [List.length_append, List.length_cons, List.length_nil]
        omega
      rw [List.foldl_cons, hstep, ih (h ++ [e]) hside]
      simp

lemma publishHistory_length_le (h : List α) (e : α) :
    (publishHistory h e).length ≤ 100 := by
  by_cases hc : 100 < (h ++ [e]).length
  · simp only [publishHistory, if_pos hc, List.length_drop]
    omega
  · simp only [publishHistory, if_neg hc]
    omega

lemma busHistory_length_le_from (es : List α) :
    ∀ h : List α, h.length ≤ 100 → (es.foldl publishHistory h).length ≤ 100 := by
  induction es with
  | nil => intro h hh; simpa using hh
  | cons e es ih =>
      intro h _
      rw [List.foldl_cons]
      exact ih (publishHistory h e) (publishHistory_length_le h e)

lemma busHistory_length_le (es : List α) : (busHistory es).length ≤ 100 :=
  busHistory_length_le_from es [] (by simp)

/-- C7 counterexample.  With 101 events published before connect, the
`event_history` frame holds only the last 100 of them, so the concatenation
of history and live events is not the full publication order: the claim as
stated is false. -/
theorem c7_replay_full_history_counterexample :
    ¬ (observedStream (List.range 101) ([] : List Nat) = List.range 101) := by
  intro h
  have hlen := congrArg List.length h
  rw [List.length_range] at hlen
  have hle : (observedStream (List.range 101) ([] : List Nat)).length ≤ 100 := by
    unfold observedStream
    rw [List.append_nil]
    exact busHistory_length_le _
  omega

/-- C7 (amended).  For every session in which at most 100 events are published
before an observer connects, the concatenation of the `event_history` frame
with the live events streamed afterwards equals the full publication order up
to the connection close (`EventBus.publish` replay buffer of cap 100 plus the
`session_websocket` connect-time history frame). -/
theorem c7_replay_equivalence_amended (pre post : List α)
    (hpre : pre.length ≤ 100) :
    observedStream pre post = pre ++ post := by
  unfold observedStream busHistory
  rw [busHistory_from_small pre [] (by simpa using hpre)]
  simp

/-- Witness for C7 (amended): two pre-connect events and one live event. -/
theorem c7_replay_equivalence_amended_witness :
    observedStream [0, 1] [2] = [0, 1] ++ [2] :=
  c7_replay_equivalence_amended [0, 1] [2] (by decide)

/-! ## Workflow happy-path execution (`graph/workflow.py`, `graph/nodes.py`)

`cost_analysis_node` (`graph/nodes.py`, line 243) evaluates
`datetime.utcnow()` but `nodes.py` has no module-level `datetime` import (the
only `from datetime import datetime` is local to `generate_docs_node`), so
entering the node raises `NameError`.  `run_architecture_workflow` catches it
and returns the *initial* state with `status = "error"`. -/

/-- Per-run workflow state for the executable interpreter: the counters and
routing inputs of `ArchAdvisorState` plus the `status` field. -/
structure RunState where
  node : Stage
  validation_round : Nat
  debate_round : Nat
  max_debate_rounds : Nat
  validation_passed : Bool
  review_findings : DAParse
  status : String

/-- Interpreter state: the workflow state, the oracle outputs the external
agents will produce (validator verdicts and parsed devil's-advocate reviews,
consumed in order), and the stages entered so far. -/
structure ExecState where
  st : RunState
  valResults : List Bool
  daResults : List DAParse
  visited : List Stage

/-- Execute the node `es.st.node` (`graph/nodes.py`,
`graph/validator_node.py`) and follow its out-edge (`build_graph`,
`graph/workflow.py`).  `cost_analysis_node` raises
(`NameError`, see above); an exception carries the stages entered so far. -/
def execStep (es : ExecState) : Except (List Stage × String) ExecState :=
  match es.st.node with
  | .retrieve_context =>
      .ok { es with
        st := { es.st with node := .architect_design, status := "designing" }
        visited := es.visited ++ [.retrieve_context] }
  | .architect_design =>
      .ok { es with
        st := { es.st with node := .validator, debate_round := 1, status := "reviewing" }
        visited := es.visited ++ [.architect_design] }
  | .validator =>
      let passed := es.valResults.headD true
      .ok { es with
        st := { es.st with
          node := vRouteTarget (should_route_after_validation passed es.st.validation_round)
          validation_passed := passed
          status := if passed then "reviewing" else "revising" }
        valResults := es.valResults.tail
        visited := es.visited ++ [.validator] }
  | .architect_revise_validation =>
      .ok { es with
        st := { es.st with
          node := .validator
          validation_round := es.st.validation_round + 1
          status := "validating" }
        visited := es.visited ++ [.architect_revise_validation] }
  | .devils_advocate_review =>
      let findings := es.daResults.headD none
      .ok { es with
        st := { es.st with
          node := dRouteTarget
            (should_continue_debate es.st.debate_round es.st.max_debate_rounds findings)
          review_findings := findings
          status := "revising" }
        daResults := es.daResults.tail
        visited := es.visited ++ [.devils_advocate_review] }
  | .architect_revise =>
      .ok { es with
        st := { es.st with
          node := .devils_advocate_review
          debate_round := es.st.debate_round + 1
          status := "reviewing" }
        visited := es.visited ++ [.architect_revise] }
  | .cost_analysis =>
      .error (es.visited ++ [.cost_analysis], "NameError: name 'datetime' is not defined")
  | .generate_docs =>
      .ok { es with
        st := { es.st with node := .terminal, status := "complete" }
        visited := es.visited ++ [.generate_docs] }
  | .terminal => .ok es

/-- Drive the graph to `terminal` (bounded by fuel, which the finite graph
never exhausts on the runs considered here). -/
def execRun : Nat → ExecState → Except (List Stage × String) ExecState
  | 0, es => .ok es
  | fuel + 1, es =>
    if es.st.node = .terminal then .ok es
    else
      match execStep es with
      | .error e => .error e
      | .ok es2 => execRun fuel es2

/-- Observable outcome of `run_architecture_workflow`. -/
structure WorkflowOutcome where
  visited : List Stage
  status : String
  validation_round : Nat
  debate_round : Nat
deriving DecidableEq, Repr

/-- `run_architecture_workflow` (`graph/workflow.py`, lines 123–203): build
the initial state, `ainvoke` the graph, and on an exception return the
initial state with `status = "error"` (the `except` branch mutates the local
`state`, not the partial graph state). -/
def run_architecture_workflow_model (m : Nat) (valResults : List Bool)
    (daResults : List DAParse) : WorkflowOutcome :=
  let init : RunState :=
    { node := .retrieve_context, validation_round := 0, debate_round := 0
      max_debate_rounds := m, validation_passed := false
      review_findings := none, status := "initializing" }
  match execRun 50 { st := init, valResults := valResults, daResults := daResults, visited := [] } with
  | .ok es =>
      { visited := es.visited, status := es.st.status
        validation_round := es.st.validation_round, debate_round := es.st.debate_round }
  | .error (visited, _msg) =>
      { visited := visited, status := "error"
        validation_round := init.validation_round, debate_round := init.debate_round }

/-- C9 (actual behavior at the failing input).  On the happy path — the
validator passes on its first run and the devil's advocate reports zero
criticals with `proceed_recommendation = "proceed"` — the workflow enters
retrieve_context, architect_design, validator, devils_advocate_review and
then cost_analysis, where `cost_analysis_node` raises `NameError` (`datetime`
is unbound in `graph/nodes.py`); `generate_docs` never runs and the returned
session state is the initial one marked `status = "error"`, not a terminal
completed state with `debate_round = 1`. -/
theorem c9_happy_path_actual :
    run_architecture_workflow_model 3 [true] [some (0, "proceed")] =
      { visited := [.retrieve_context, .architect_design, .validator,
          .devils_advocate_review, .cost_analysis]
        status := "error", validation_round := 0, debate_round := 0 } ∧
    (run_architecture_workflow_model 3 [true] [some (0, "proceed")]).status ≠ "complete" := by
  constructor
  · rfl
  · decide

/-! ## Availability validator (`validators/availability_validator.py`,
`validators/base.py`, `validators/reference_data.py`)

String primitives are embedded over `List Char` (Python `str.lower`, `in`,
`str.replace`, slicing), and availability figures exactly over `ℚ`. -/

/-- Python `str.lower()` (character-wise, as used on the ASCII data here). -/
def lowerStr (s : String) : String := String.mk (s.data.map Char.toLower)

/-- Substring occurrence on character lists (Python `needle in hay`). -/
def containsSubList (needle : List Char) : List Char → Bool
  | [] => needle.isEmpty
  | c :: rest => needle.isPrefixOf (c :: rest) || containsSubList needle rest

/-- Python `needle in hay` on strings. -/
def strContains (hay needle : String) : Bool := containsSubList needle.data hay.data

/-- `BaseValidator._contains_any` (`validators/base.py`): does the lowered
text contain any of the lowered keywords? -/
def containsAny (text : String) (keywords : List String) : Bool :=
  keywords.any (fun kw => strContains (lowerStr text) (lowerStr kw))

/-- `key.replace("_", " ")` for the single-character pattern used in
`_estimate_component_availability`. -/
def underscoresToSpaces (s : String) : String :=
  String.mk (s.data.map (fun c => if c = '_' then ' ' else c))

/-- Python slicing `s[:100]`. -/
def take100 (s : String) : String := String.mk (s.data.take 100)

/-- `REDUNDANCY_KEYWORDS` (`validators/availability_validator.py`). -/
def REDUNDANCY_KEYWORDS : List String :=
  ["cluster", "replica", "multi-az", "multi_az", "multi-region",
   "failover", "standby", "hot-standby", "sentinel", "replication",
   "redundant", "ha ", "high availability", "active-passive", "active-active"]

/-- `SINGLE_INSTANCE_KEYWORDS` (`validators/availability_validator.py`). -/
def SINGLE_INSTANCE_KEYWORDS : List String :=
  ["single", "standalone", "one instance", "single node", "1 instance",
   "single-instance", "no replica"]

/-- `COMPONENT_AVAILABILITY` (`validators/reference_data.py`), in insertion
order (dict iteration order matters for the first-match lookup). -/
def COMPONENT_AVAILABILITY : List (String × ℚ) :=
  [("alb", 9999/10000), ("nlb", 9999/10000), ("elb", 9999/10000),
   ("cloud_load_balancer", 9999/10000), ("load_balancer", 9995/10000),
   ("ec2", 9995/10000), ("ecs", 9999/10000), ("eks", 9995/10000),
   ("lambda", 9999/10000), ("cloud_run", 9999/10000),
   ("cloud_functions", 9999/10000), ("fargate", 9999/10000),
   ("kubernetes", 9995/10000), ("vm", 9990/10000),
   ("rds", 9995/10000), ("rds_multi_az", 9999/10000), ("aurora", 9999/10000),
   ("dynamodb", 9999/10000), ("cloud_sql", 9995/10000), ("cosmosdb", 9999/10000),
   ("postgresql", 9990/10000), ("mysql", 9990/10000), ("mongodb", 9990/10000),
   ("cassandra", 9995/10000),
   ("elasticache", 9999/10000), ("redis", 9990/10000),
   ("redis_cluster", 9999/10000), ("memcached", 9990/10000),
   ("msk", 9999/10000), ("kafka", 9990/10000), ("sqs", 9999/10000),
   ("sns", 9999/10000), ("rabbitmq", 9990/10000), ("eventbridge", 9999/10000),
   ("s3", 99999/100000), ("gcs", 99999/100000), ("ebs", 9999/10000),
   ("api_gateway", 9999/10000), ("apigee", 9999/10000), ("kong", 9995/10000),
   ("cloudfront", 9999/10000), ("cloudflare", 9999/10000),
   ("service", 9995/10000), ("microservice", 9995/10000)]

/-- A parsed architecture component as the availability validator reads it
(`comp.get("name")`, `comp.get("type")`, `comp.get("tech_stack", [])`,
`comp.get("scaling_strategy", "")`). -/
structure Component where
  name : String
  type : String
  tech_stack : List String
  scaling_strategy : Option String := none

/-- The design fields the availability validator reads: the components list,
`non_functional.availability_target`, and `deployment.regions`. -/
structure DesignDoc where
  components : List Component
  availability_target : String
  regions : List String

/-- Digits-to-number fold (as in a decimal parse). -/
def digitsToNat (cs : List Char) : Nat :=
  cs.foldl (fun n c => n * 10 + (c.toNat - 48)) 0

/-- Python `float(text)` restricted to the plain decimal literals that occur
as availability targets (digits with at most one point). -/
def parseDecimal (s : String) : Option ℚ :=
  let cs := s.data
  let intPart := cs.takeWhile (fun c => !(c = '.'))
  match cs.dropWhile (fun c => !(c = '.')) with
  | [] =>
    if !cs.isEmpty && cs.all Char.isDigit then some (digitsToNat cs) else none
  | _ :: frac =>
    if (!intPart.isEmpty || !frac.isEmpty) &&
        intPart.all Char.isDigit && frac.all Char.isDigit then
      some ((digitsToNat intPart : ℚ) + (digitsToNat frac : ℚ) / (10 : ℚ) ^ frac.length)
    else none

/-- `BaseValidator._parse_availability` (`validators/base.py`): lower, strip,
strip trailing `%`, look up the named nines by substring, else parse the
decimal. -/
def parseAvailability (value : String) : Option ℚ :=
  let t1 := (lowerStr value).data
  let t2 := ((t1.dropWhile Char.isWhitespace).reverse.dropWhile Char.isWhitespace).reverse
  let text := String.mk (t2.reverse.dropWhile (fun c => c = '%')).reverse
  if strContains text "two nines" then some 99
  else if strContains text "three nines" then some (999/10)
  else if strContains text "four nines" then some (9999/100)
  else if strContains text "five nines" then some (99999/1000)
  else parseDecimal text

/-- Round-half-up fixed-point formatting, modelling Python `{:.Nf}` (which is
round-half-even; the two agree away from exact decimal ties, as for every
value formatted here). -/
def formatFixed (prec : Nat) (q : ℚ) : String :=
  let m : Int := Int.fdiv (2 * q.num * (10 : Int) ^ prec + q.den) (2 * (q.den : Int))
  let ip := m.natAbs / 10 ^ prec
  let fp := m.natAbs % 10 ^ prec
  let fpStr := toString fp
  let fpPad := String.mk (List.replicate (prec - fpStr.length) '0') ++ fpStr
  (if m < 0 then "-" else "") ++ toString ip ++ (if prec = 0 then "" else "." ++ fpPad)

/-- Models Python `str()`/f-string rendering of the simple decimal floats
appearing here (e.g. `str(99.99) = "99.99"`, `str(99.0) = "99.0"`). -/
def formatPyNumber (q : ℚ) : String :=
  let s := formatFixed 6 q
  let cs := s.data.reverse.dropWhile (fun c => c = '0')
  let cs := if cs.head? = some '.' then '0' :: cs else cs
  String.mk cs.reverse

/-- The `comp_text` of `_detect_spofs`:
`f"{name} {type} {scaling_strategy} {' '.join(tech_stack)}".lower()`. -/
def compTextSpof (c : Component) : String :=
  lowerStr (c.name ++ " " ++ lowerStr c.type ++ " " ++ c.scaling_strategy.getD "" ++
    " " ++ String.intercalate " " c.tech_stack)

/-- One iteration of the `_detect_spofs` loop
(`validators/availability_validator.py`, lines 69–116). -/
def detectSpofOne (severity : Severity) (c : Component) : List VError :=
  let comp_name := c.name
  let comp_type := lowerStr c.type
  let comp_text := compTextSpof c
  let has_redundancy := containsAny comp_text REDUNDANCY_KEYWORDS
  let is_single := containsAny comp_text SINGLE_INSTANCE_KEYWORDS
  if comp_type = "database" ∧ (is_single || !has_redundancy) = true then
    [{ code := .SPOF_DATABASE, severity := severity
       message := "Database '" ++ comp_name ++ "' appears to be a single instance with no replication"
       component := some comp_name
       suggestion := some "Add read replicas, multi-AZ deployment, or clustering"
       evidence := some ("No redundancy keywords found in: " ++ take100 comp_text) }]
  else if comp_type = "cache" ∧ (is_single || !has_redundancy) = true then
    [{ code := .SPOF_CACHE, severity := .high
       message := "Cache '" ++ comp_name ++ "' is a single instance — cache failure will cascade to database"
       component := some comp_name
       suggestion := some "Use Redis Sentinel, Redis Cluster, or ElastiCache with replicas" }]
  else if comp_type = "gateway" ∧ (is_single || !has_redundancy) = true then
    [{ code := .SPOF_GATEWAY, severity := severity
       message := "API Gateway '" ++ comp_name ++ "' appears to be a single instance — all traffic routes through it"
       component := some comp_name
       suggestion := some "Use a managed gateway (AWS ALB, API Gateway) or deploy multiple instances behind a load balancer" }]
  else if comp_type = "queue" ∧ (is_single || !has_redundancy) = true then
    [{ code := .SPOF_QUEUE, severity := .high
       message := "Message queue '" ++ comp_name ++ "' is a single instance — async processing will halt on failure"
       component := some comp_name
       suggestion := some "Use a managed service (SQS, MSK) or deploy a multi-broker cluster" }]
  else []

/-- `_detect_spofs` (`validators/availability_validator.py`): the severity is
CRITICAL when the declared target is truthy and ≥ 99.9, else HIGH. -/
def detectSpofs (components : List Component) (avail_target : Option ℚ) : List VError :=
  let severity :=
    match avail_target with
    | some t => if t ≠ 0 ∧ 999/10 ≤ t then Severity.critical else Severity.high
    | none => Severity.high
  components.foldl (fun acc c => acc ++ detectSpofOne severity c) []

/-- Per-type fallback availabilities of
`_estimate_component_availability`. -/
def typeDefaultAvailability (comp_type : String) : ℚ :=
  if comp_type = "service" then 9995/10000
  else if comp_type = "database" then 9990/10000
  else if comp_type = "cache" then 9990/10000
  else if comp_type = "queue" then 9990/10000
  else if comp_type = "gateway" then 9995/10000
  else if comp_type = "cdn" then 9999/10000
  else if comp_type = "storage" then 9999/10000
  else 9995/10000

/-- `_estimate_component_availability`
(`validators/availability_validator.py`, lines 172–196): first matching
reference key (by substring, underscores also tried as spaces), redundancy
approximated as `1 − (1 − a)²`; per-type default otherwise.  (The source's
`Optional` return is never `None`; the value is returned directly.) -/
def estimateComponentAvailability (comp_text : String) (comp_type : String) : ℚ :=
  let has_redundancy := containsAny comp_text REDUNDANCY_KEYWORDS
  match COMPONENT_AVAILABILITY.find?
      (fun p => strContains comp_text (underscoresToSpaces p.1) || strContains comp_text p.1) with
  | some p => if has_redundancy then 1 - (1 - p.2) ^ 2 else p.2
  | none =>
    let base := typeDefaultAvailability comp_type
    if has_redundancy then 1 - (1 - base) ^ 2 else base

/-- The `comp_text` of `_check_composite_availability`:
`f"{name.lower()} {type.lower()} {' '.join(lowered tech_stack)}"`. -/
def compTextComposite (c : Component) : String :=
  lowerStr c.name ++ " " ++ lowerStr c.type ++ " " ++
    String.intercalate " " (c.tech_stack.map lowerStr)

/-- The `component_avails` accumulation loop of
`_check_composite_availability` (guarded by Python truthiness of `avail`). -/
def componentAvails (components : List Component) : List (String × ℚ) :=
  components.foldl (fun acc c =>
    let avail := estimateComponentAvailability (compTextComposite c) (lowerStr c.type)
    if avail ≠ 0 then acc ++ [(c.name, avail)] else acc) []

/-- The `composite_percent` of `_check_composite_availability`: serial
product of the component availabilities, times 100. -/
def compositePercent (components : List Component) : ℚ :=
  ((componentAvails components).foldl (fun acc p => acc * p.2) 1) * 100

/-- `_check_composite_availability`
(`validators/availability_validator.py`, lines 120–170). -/
def checkCompositeAvailability (components : List Component) (avail_target : ℚ) :
    List VError :=
  let avails := componentAvails components
  if 2 ≤ avails.length then
    let composite_percent := compositePercent components
    if composite_percent < avail_target then
      let bottlenecks := (avails.mergeSort (fun a b => decide (a.2 ≤ b.2))).take 3
      let bottleneck_str := String.intercalate ", "
        (bottlenecks.map (fun p => p.1 ++ " (" ++ formatFixed 3 (p.2 * 100) ++ "%)"))
      [{ code := .AVAIL_COMPOSITE_BELOW_TARGET, severity := .critical
         message := "Composite availability is " ++ formatFixed 2 composite_percent ++
           "%, below target of " ++ formatPyNumber avail_target ++
           "%. Bottlenecks: " ++ bottleneck_str
         suggestion := some ("Add redundancy to bottleneck components, use managed services " ++
           "with higher SLAs, or lower the availability target")
         evidence := some ("Computed from " ++ toString avails.length ++ " serial components") }]
    else []
  else []

/-- The multi-AZ keyword list of `_check_high_sla_requirements`. -/
def MULTI_AZ_KEYWORDS : List String :=
  ["multi-az", "multi_az", "multiple availability zones", "multi-region", "multi_region"]

/-- `_check_high_sla_requirements`
(`validators/availability_validator.py`, lines 198–218). -/
def checkHighSlaRequirements (regions : List String) (flat_text : String)
    (avail_target : ℚ) : List VError :=
  if containsAny flat_text MULTI_AZ_KEYWORDS then []
  else if regions.length ≤ 1 then
    [{ code := .AVAIL_SINGLE_REGION_HIGH_SLA, severity := .critical
       message := "Availability target " ++ formatPyNumber avail_target ++
         "% requires multi-AZ or multi-region, but design appears single-region"
       field := some "deployment.regions"
       suggestion := some "Deploy across at least 2 availability zones, or use multi-region active-passive" }]
  else []

/-- The replication keyword list of `_check_replication`. -/
def REPLICATION_KEYWORDS : List String :=
  ["replication", "replica", "standby", "follower", "secondary",
   "read replica", "multi-master", "primary-secondary"]

/-- `BaseValidator._flatten_text` applied to one component dict:
`json.dumps(comp).lower()`. -/
def flattenComponent (c : Component) : String :=
  lowerStr ("\x7b\"name\": \"" ++ c.name ++ "\", \"type\": \"" ++ c.type ++
    "\", \"tech_stack\": [" ++
    String.intercalate ", " (c.tech_stack.map (fun t => "\"" ++ t ++ "\"")) ++ "]" ++
    (match c.scaling_strategy with
     | none => ""
     | some s => ", \"scaling_strategy\": \"" ++ s ++ "\"") ++ "\x7d")

/-- `_check_replication` (`validators/availability_validator.py`,
lines 220–244). -/
def checkReplication (components : List Component) (avail_target : ℚ) : List VError :=
  components.foldl (fun acc c =>
    if lowerStr c.type = "database" then
      if containsAny (flattenComponent c) REPLICATION_KEYWORDS then acc
      else
        acc ++ [{
          code := .AVAIL_NO_REPLICATION, severity := .high
          message := "Database '" ++ c.name ++
            "' has no replication strategy specified with " ++
            formatPyNumber avail_target ++ "% SLA target"
          component := some c.name
          suggestion := some "Specify replication: primary-replica, multi-master, or managed service with automatic replication" }]
    else acc) []

/-- `BaseValidator._flatten_text` on the whole design:
`json.dumps(design).lower()`. -/
def flattenDesign (d : DesignDoc) : String :=
  lowerStr ("\x7b\"components\": [" ++
    String.intercalate ", " (d.components.map flattenComponent) ++
    "], \"non_functional\": \x7b\"availability_target\": \"" ++
    d.availability_target ++ "\"\x7d, \"deployment\": \x7b\"regions\": [" ++
    String.intercalate ", " (d.regions.map (fun r => "\"" ++ r ++ "\"")) ++
    "]\x7d\x7d")

/-- `AvailabilityValidator.validate`
(`validators/availability_validator.py`, lines 35–60): SPOF detection always;
composite check when the target is truthy and ≥ 99.0; high-SLA topology when
≥ 99.99; replication when ≥ 99.9. -/
def availabilityValidate (d : DesignDoc) : List VError :=
  let avail_target := parseAvailability d.availability_target
  let flat_text := flattenDesign d
  detectSpofs d.components avail_target ++
    (match avail_target with
     | some t => if t ≠ 0 ∧ 99 ≤ t then checkCompositeAvailability d.components t else []
     | none => []) ++
    (match avail_target with
     | some t => if t ≠ 0 ∧ 9999/100 ≤ t then checkHighSlaRequirements d.regions flat_text t else []
     | none => []) ++
    (match avail_target with
     | some t => if t ≠ 0 ∧ 999/10 ≤ t then checkReplication d.components t else []
     | none => [])

/-- The S2 scenario design: two `database` components with tech
`postgresql`, no redundancy tokens, names matching no availability reference
key, `availability_target = "99.99%"`, no declared regions. -/
def scenarioS2 : DesignDoc :=
  { components :=
      [{ name := "Main DB", type := "database", tech_stack := ["postgresql"] },
       { name := "User DB", type := "database", tech_stack := ["postgresql"] }]
    availability_target := "99.99%"
    regions := [] }

set_option maxRecDepth 8000 in
/-- C8.  On the S2 design (two serial `postgresql` databases, no redundancy
tokens, target `"99.99%"`), validation produces an
`AVAIL_COMPOSITE_BELOW_TARGET` error at severity critical whose evidence
states it was computed from 2 serial components, and the composite
availability the validator computes (reported in the error message) is
99.80 % within 0.01 (it is exactly 99.8001 %). -/
theorem c8_composite_availability_scenario :
    (∃ e ∈ availabilityValidate scenarioS2,
        e.code = ErrorCode.AVAIL_COMPOSITE_BELOW_TARGET ∧
        e.severity = Severity.critical ∧
        e.evidence = some "Computed from 2 serial components") ∧
    compositePercent scenarioS2.components ≤ 499/5 + 1/100 ∧
    499/5 - 1/100 ≤ compositePercent scenarioS2.components := by
  refine ⟨?_, by with_unfolding_all decide, by with_unfolding_all decide⟩
  with_unfolding_all decide

end ArchAdvisor
